import Mathlib

/-!
Shallow embedding of the WiredTiger storage-engine adaptation layer
(`wiredtiger_kv_engine.cpp`) and of the operation-context interrupt checks
(`operation_context_impl.cpp`), together with theorems settling the spec
claims about them.

External engine calls (`WT_SESSION::drop`, `checkpoint`, the size-storer
transaction body) are modelled by explicit oracle parameters giving the
return code / outcome of each call; state mutated by the code (the
pending-drop set, the epoch counter, the idle-session pool, the size-storer
maps, the operation's kill flag) is passed explicitly.
-/

namespace MongoSpec

/-- The POSIX `EBUSY` errno value, returned by the engine when a drop target
is still referenced by open cursors. -/
def EBUSY : Int := 16

/-- `WiredTigerKVEngine::_uri`: deterministic ident → engine resource name. -/
def _uri (ident : String) : String := "table:" ++ ident

/-- Idle sessions held by the `WiredTigerSessionCache` pool, identified by
arbitrary tags. -/
structure SessionCache where
  idle : List Nat
deriving DecidableEq, Repr

/-- Modelled from the spec: `WiredTigerSessionCache::closeAll` (its body is
not among the provided sources; spec §4.2 "force-closes every currently idle
session"). -/
def SessionCache.closeAll (_sc : SessionCache) : SessionCache := { idle := [] }

/-- The `WiredTigerKVEngine` state touched by the drop path: the
mutex-guarded set of uris pending deletion (`_identToDrop`, modelled as a
duplicate-free list), the `_epoch` counter, and the session pool. -/
structure KVEngineState where
  identToDrop : List String
  epoch : Nat
  sessionCache : SessionCache
deriving DecidableEq, Repr

/-- `std::set` insertion on the list model: no duplicates. -/
def setInsert (x : String) (l : List String) : List String :=
  if x ∈ l then l else l ++ [x]

/-- Error codes appearing in the embedded fragment of `mongo::ErrorCodes`. -/
inductive ErrorCodes
  | Interrupted
  | InterruptedAtShutdown
  | ExceededTimeLimit
deriving DecidableEq, Repr

/-- `mongo::Status`: OK or an error code plus reason string.  A `uasserted`
call in the source is modelled as producing the corresponding error value. -/
inductive Status
  | OK
  | error (code : ErrorCodes) (reason : String)
deriving DecidableEq, Repr

/-- `WiredTigerKVEngine::_drop`.  `eng uri` is the return code of the forced
engine-level `WT_SESSION::drop` of `uri`.  Result `none` models the fatal
`invariantWTOK` process abort on an unexpected code; `some (worked, s)` is
the boolean result together with the updated engine state. -/
def KVEngineState._drop (eng : String → Int) (ident : String) (s : KVEngineState) :
    Option (Bool × KVEngineState) :=
  let uri := _uri ident
  let ret := eng uri
  if ret = 0 then
    some (true, s)
  else if ret = EBUSY then
    some (false,
      { identToDrop := setInsert uri s.identToDrop,
        epoch := s.epoch + 1,
        sessionCache := s.sessionCache.closeAll })
  else
    none

/-- `WiredTigerKVEngine::dropRecordStore`: calls `_drop` and returns OK. -/
def KVEngineState.dropRecordStore (eng : String → Int) (ident : String)
    (s : KVEngineState) : Option (Status × KVEngineState) :=
  (s._drop eng ident).map fun r => (Status.OK, r.2)

/-- `WiredTigerKVEngine::dropSortedDataInterface`: calls `_drop` and returns OK. -/
def KVEngineState.dropSortedDataInterface (eng : String → Int) (ident : String)
    (s : KVEngineState) : Option (Status × KVEngineState) :=
  (s._drop eng ident).map fun r => (Status.OK, r.2)

/-- The retry loop inside `WiredTigerKVEngine::dropAllQueued`: walks the
snapshot `mine` of the pending set accumulating the uris whose forced drop
returned 0; EBUSY leaves the uri queued; any other code is the fatal
`invariantWTOK` (`none`). -/
def dropQueuedLoop (eng : String → Int) : List String → List String → Option (List String)
  | [], deleted => some deleted
  | uri :: rest, deleted =>
    let ret := eng uri
    if ret = 0 then dropQueuedLoop eng rest (deleted ++ [uri])
    else if ret = EBUSY then dropQueuedLoop eng rest deleted
    else none

/-- `WiredTigerKVEngine::dropAllQueued`: snapshots `_identToDrop`, re-attempts
a forced drop of every entry, then erases the successfully dropped uris from
the pending set. -/
def KVEngineState.dropAllQueued (eng : String → Int) (s : KVEngineState) :
    Option KVEngineState :=
  match dropQueuedLoop eng s.identToDrop [] with
  | none => none
  | some deleted =>
    some { s with identToDrop := s.identToDrop.filter (fun u => !(deleted.contains u)) }

/-- Exceptions that the size-storer transaction body may raise inside
`syncSizeInfo`: the engine's `WriteConflictException`, or anything else. -/
inductive StorerExc
  | writeConflict
  | other
deriving DecidableEq, Repr

/-- The size-storer data visible to the embedded fragment: the in-memory
entry map (`WiredTigerSizeStorer`) and the content of the persisted
`table:sizeStorer` resource, both as maps uri → (numRecords, dataSize). -/
structure SizeStorerState where
  mem : String → Option (Int × Int)
  persisted : String → Option (Int × Int)

/-- Modelled from the spec: `WiredTigerSizeStorer::store` (its body is not
among the provided sources; spec §4.6 "updates the in-memory entry; does not
immediately persist"). -/
def SizeStorerState.store (st : SizeStorerState) (uri : String)
    (numRecords dataSize : Int) : SizeStorerState :=
  { st with mem := fun u => if u = uri then some (numRecords, dataSize) else st.mem u }

/-- Result of a call that may return normally or propagate an exception. -/
inductive SyncOutcome
  | ok (st : SizeStorerState)
  | raised (e : StorerExc) (st : SizeStorerState)

/-- `WiredTigerKVEngine::syncSizeInfo`.  `hasStorer` is whether `_sizeStorer`
is non-null; `txn` is the outcome of the transactional body
(begin / `storeInto` / commit): `none` = committed, `some e` = body raised
`e` and the transaction did not commit.  A committed `storeInto` rewrites the
persisted resource from the in-memory map; a `WriteConflictException` is
caught and ignored; any other exception propagates. -/
def syncSizeInfo (hasStorer : Bool) (txn : Option StorerExc)
    (st : SizeStorerState) : SyncOutcome :=
  if !hasStorer then .ok st
  else
    match txn with
    | none => .ok { st with persisted := st.mem }
    | some .writeConflict => .ok st
    | some .other => .raised .other st

/-- Result of `flushAllFiles`: the returned int, an escaping exception, or
the fatal `invariantWTOK` abort on a failed checkpoint. -/
inductive FlushOutcome
  | ok (st : SizeStorerState) (ret : Int)
  | raised (e : StorerExc) (st : SizeStorerState)
  | fatal

set_option linter.unusedVariables false in
/-- `WiredTigerKVEngine::flushAllFiles(sync)`: syncs the size storer, issues
a checkpoint (`checkpointRet` is the engine's return code, non-zero being the
fatal `invariantWTOK`), and returns 1.  The `sync` argument is never read.  -/
def flushAllFiles (sync : Bool) (hasStorer : Bool) (txn : Option StorerExc)
    (checkpointRet : Int) (st : SizeStorerState) : FlushOutcome :=
  match syncSizeInfo hasStorer txn st with
  | .raised e st2 => .raised e st2
  | .ok st2 => if checkpointRet = 0 then .ok st2 1 else .fatal

/-- Result of `okToRename`: a returned `Status`, or an escaping exception. -/
inductive RenameOutcome
  | ok (status : Status) (st : SizeStorerState)
  | raised (e : StorerExc) (st : SizeStorerState)

/-- `WiredTigerKVEngine::okToRename`: stores the original record store's
`numRecords` and `dataSize` (oracle inputs `n`, `d`) under the ident's uri,
then `syncSizeInfo()`, then returns `Status::OK()`. -/
def okToRename (ident : String) (n d : Int) (txn : Option StorerExc)
    (st : SizeStorerState) : RenameOutcome :=
  let st1 := st.store (_uri ident) n d
  match syncSizeInfo true txn st1 with
  | .ok st2 => .ok Status.OK st2
  | .raised e st2 => .raised e st2

/-- The `wiredtiger_open` configuration string built by the
`WiredTigerKVEngine` constructor, mirroring its `stringstream` appends. -/
def openConfig (cacheSizeGB : Int) (durable : Bool) (extraOpenOptions : String) :
    String :=
  let s0 := "create,"
  let s1 := s0 ++ "cache_size=" ++ toString cacheSizeGB ++ "G,"
  let s2 := s1 ++ "session_max=20000,"
  let s3 := s2 ++ "extensions=[local=(entry=index_collator_extension)],"
  let s4 := s3 ++ "statistics=(all),"
  let s5 := if durable then s4 ++ "log=(enabled=true,archive=true,path=journal)," else s4
  let s6 := s5 ++ "checkpoint=(wait=60,log_size=2GB),"
  s6 ++ extraOpenOptions

/-- C-style cast of a real value (modelled as an exact rational in place of
the source's `double`) to `int`: truncation toward zero. -/
def ratTruncToInt (q : ℚ) : Int := if 0 ≤ q then ⌊q⌋ else ⌈q⌉

/-- The cache-size computation in the `WiredTigerKVEngine` constructor:
`cacheSizeGB` starts at 1; when the detected `pageSize` and `numPages` are
both positive, it becomes `int((numPages * pageSize / 10) / 2^30)` clamped
below at 1. -/
def computeCacheSizeGB (pageSize numPages : ℚ) : Int :=
  if 0 < pageSize ∧ 0 < numPages then
    let totalBytes := numPages * pageSize
    let cacheBytes := totalBytes / 10
    let g := ratTruncToInt (cacheBytes / (1024 * 1024 * 1024))
    if g < 1 then 1 else g
  else 1

/-- The fields of `mongo::CollectionOptions` read by `getRecordStore`. -/
structure CollectionOptions where
  capped : Bool
  cappedSize : Int
  cappedMaxDocs : Int
deriving DecidableEq, Repr

/-- The arguments `WiredTigerKVEngine::getRecordStore` passes to the
`WiredTigerRecordStore` constructor. -/
structure RecordStoreCtorArgs where
  ns : String
  uri : String
  isCapped : Bool
  cappedMaxSize : Int
  cappedMaxDocs : Int
deriving DecidableEq, Repr

/-- `WiredTigerKVEngine::getRecordStore`: capped stores get
`cappedSize ? cappedSize : 4096` and `cappedMaxDocs ? cappedMaxDocs : -1`
(C truthiness: non-zero); uncapped stores get -1 for both. -/
def getRecordStore (ns ident : String) (options : CollectionOptions) :
    RecordStoreCtorArgs :=
  if options.capped then
    { ns := ns
      uri := _uri ident
      isCapped := options.capped
      cappedMaxSize := if options.cappedSize ≠ 0 then options.cappedSize else 4096
      cappedMaxDocs := if options.cappedMaxDocs ≠ 0 then options.cappedMaxDocs else -1 }
  else
    { ns := ns
      uri := _uri ident
      isCapped := false
      cappedMaxSize := -1
      cappedMaxDocs := -1 }

/-- The process-wide state read by the interrupt checks. -/
structure ProcessState where
  killAllOperations : Bool
deriving DecidableEq, Repr

/-- The `checkForInterruptFail` fail point: whether the fail-point block is
active, and whether the probabilistic `opShouldFail` check (connection id,
nesting, chance) fires for this client — the latter an oracle, since it
draws from a PRNG. -/
structure FailPointState where
  active : Bool
  shouldFail : Bool
deriving DecidableEq, Repr

/-- The per-operation state read and written by the interrupt checks:
lock state, write-since-checkpoint flag, deadline expiry, and the CurOp
kill-pending flag. -/
structure OpState where
  isWriteLocked : Bool
  hasWrittenSinceCheckpoint : Bool
  maxTimeHasExpired : Bool
  killPending : Bool
deriving DecidableEq, Repr

/-- Modelled from the spec: `CurOp::kill` "marks the operation killed" (its
body is not among the provided sources), after which `killPending()` reads
true. -/
def OpState.kill (c : OpState) : OpState := { c with killPending := true }

/-- `OperationContextImpl::checkForInterrupt(heedMutex)`.  A `uasserted`
call is modelled as returning the corresponding error `Status`; the second
component is the operation state after any `kill()` marking. -/
def checkForInterrupt (heedMutex : Bool) (g : ProcessState) (fp : FailPointState)
    (c : OpState) : Status × OpState :=
  if heedMutex && c.isWriteLocked && c.hasWrittenSinceCheckpoint then
    (Status.OK, c)
  else if g.killAllOperations then
    (Status.error .InterruptedAtShutdown "interrupted at shutdown", c)
  else if c.maxTimeHasExpired then
    (Status.error .ExceededTimeLimit "operation exceeded time limit", c.kill)
  else
    let c1 := if fp.active && fp.shouldFail then c.kill else c
    if c1.killPending then
      (Status.error .Interrupted "operation was interrupted", c1)
    else
      (Status.OK, c1)

/-- `OperationContextImpl::checkForInterruptNoAssert`: same sequence of
checks as `checkForInterrupt` but with no `heedMutex` suppression, returning
a `Status` instead of throwing — and reporting every condition with code
`Interrupted`. -/
def checkForInterruptNoAssert (g : ProcessState) (fp : FailPointState)
    (c : OpState) : Status × OpState :=
  if g.killAllOperations then
    (Status.error .Interrupted "interrupted at shutdown", c)
  else if c.maxTimeHasExpired then
    (Status.error .Interrupted "exceeded time limit", c.kill)
  else
    let c1 := if fp.active && fp.shouldFail then c.kill else c
    if c1.killPending then
      (Status.error .Interrupted "interrupted", c1)
    else
      (Status.OK, c1)

/-- Self-membership after `std::set` insertion. -/
theorem mem_setInsert_self (x : String) (l : List String) : x ∈ setInsert x l := by
  unfold setInsert
  split
  · assumption
  · simp

/-- C1: when the immediate forced engine drop issued by `dropRecordStore` or
`dropSortedDataInterface` returns EBUSY, the resource's uri is added to the
pending-deletion set, the epoch counter is incremented by one, and all idle
pooled sessions are closed; in every case (immediate success or busy) the
drop call returns a success status to the caller. -/
theorem drop_busy_queues_and_reports_ok (eng : String → Int) (ident : String)
    (s : KVEngineState) :
    (eng (_uri ident) = EBUSY →
      s.dropRecordStore eng ident =
        some (Status.OK,
          { identToDrop := setInsert (_uri ident) s.identToDrop,
            epoch := s.epoch + 1,
            sessionCache := { idle := [] } }) ∧
      s.dropSortedDataInterface eng ident =
        some (Status.OK,
          { identToDrop := setInsert (_uri ident) s.identToDrop,
            epoch := s.epoch + 1,
            sessionCache := { idle := [] } }) ∧
      _uri ident ∈ setInsert (_uri ident) s.identToDrop) ∧
    (eng (_uri ident) = 0 →
      s.dropRecordStore eng ident = some (Status.OK, s) ∧
      s.dropSortedDataInterface eng ident = some (Status.OK, s)) := by
  constructor
  · intro h
    have h0 : eng (_uri ident) ≠ 0 := by rw [h]; decide
    refine ⟨?_, ?_, mem_setInsert_self _ _⟩ <;>
      simp [KVEngineState.dropRecordStore, KVEngineState.dropSortedDataInterface,
        KVEngineState._drop, h, h0, SessionCache.closeAll, EBUSY]
  · intro h
    constructor <;>
      simp [KVEngineState.dropRecordStore, KVEngineState.dropSortedDataInterface,
        KVEngineState._drop, h]

/-- Witness for C1 at a concrete busy engine and ident. -/
theorem drop_busy_queues_and_reports_ok_witness :
    ((fun _ : String => (16 : Int)) (_uri "a") = EBUSY) ∧
    KVEngineState.dropRecordStore (fun _ => (16 : Int)) "a" ⟨[], 0, ⟨[7]⟩⟩ =
      some (Status.OK, ⟨["table:a"], 1, ⟨[]⟩⟩) := by
  refine ⟨rfl, ?_⟩
  have h := (drop_busy_queues_and_reports_ok (fun _ => (16 : Int)) "a" ⟨[], 0, ⟨[7]⟩⟩).1 rfl
  simpa [setInsert, _uri] using h.1

/-- The retry loop succeeds and returns the successfully dropped uris when
every pending drop yields 0 or EBUSY. -/
theorem dropQueuedLoop_ok (eng : String → Int) :
    ∀ (l acc : List String), (∀ u ∈ l, eng u = 0 ∨ eng u = EBUSY) →
      dropQueuedLoop eng l acc = some (acc ++ l.filter (fun u => eng u == 0)) := by
  intro l
  induction l with
  | nil => intro acc _; simp [dropQueuedLoop]
  | cons x xs ih =>
    intro acc h
    have hxs : ∀ u ∈ xs, eng u = 0 ∨ eng u = EBUSY := fun u hu =>
      h u (List.mem_cons_of_mem _ hu)
    rcases h x (List.mem_cons_self x xs) with h0 | hb
    · simp [dropQueuedLoop, h0, ih (acc ++ [x]) hxs]
    · have h0 : eng x ≠ 0 := by rw [hb]; decide
      simp [dropQueuedLoop, hb, h0, ih acc hxs, EBUSY]

/-- The retry loop hits the fatal `invariantWTOK` when some pending drop
yields a code other than 0 and EBUSY. -/
theorem dropQueuedLoop_fatal (eng : String → Int) :
    ∀ (l acc : List String), (∃ u ∈ l, ¬(eng u = 0 ∨ eng u = EBUSY)) →
      dropQueuedLoop eng l acc = none := by
  intro l
  induction l with
  | nil => intro acc h; simp at h
  | cons x xs ih =>
    intro acc h
    rcases h with ⟨u, hu, hbad⟩
    push_neg at hbad
    rcases List.mem_cons.mp hu with rfl | hmem
    · simp [dropQueuedLoop, hbad.1, hbad.2]
    · by_cases hx0 : eng x = 0
      · simpa [dropQueuedLoop, hx0] using
          ih (acc ++ [x]) ⟨u, hmem, by tauto⟩
      · by_cases hxb : eng x = EBUSY
        · simpa [dropQueuedLoop, hx0, hxb] using ih acc ⟨u, hmem, by tauto⟩
        · simp [dropQueuedLoop, hx0, hxb]

/-- C3: one invocation of the maintenance retry re-attempts a forced drop of
every pending resource name; exactly those names whose drop returns success
are removed from the set, names whose drop returns EBUSY remain, and any
other non-zero engine return code is a fatal invariant violation. -/
theorem dropAllQueued_spec (eng : String → Int) (s : KVEngineState) :
    ((∀ u ∈ s.identToDrop, eng u = 0 ∨ eng u = EBUSY) →
      ∃ s2, s.dropAllQueued eng = some s2 ∧
        s2.epoch = s.epoch ∧
        s2.sessionCache = s.sessionCache ∧
        ∀ u, u ∈ s2.identToDrop ↔ u ∈ s.identToDrop ∧ eng u = EBUSY) ∧
    ((∃ u ∈ s.identToDrop, ¬(eng u = 0 ∨ eng u = EBUSY)) →
      s.dropAllQueued eng = none) := by
  constructor
  · intro h
    refine ⟨KVEngineState.mk
      (s.identToDrop.filter
        (fun u => !((List.filter (fun v => eng v == 0) s.identToDrop).contains u)))
      s.epoch s.sessionCache, ?_, rfl, rfl, ?_⟩
    · unfold KVEngineState.dropAllQueued
      rw [dropQueuedLoop_ok eng s.identToDrop [] h]
      simp
    · intro u
      simp only [List.mem_filter, Bool.not_eq_true']
      constructor
      · rintro ⟨hu, hnc⟩
        refine ⟨hu, ?_⟩
        rcases h u hu with h0 | hb
        · exfalso
          have hmem : u ∈ List.filter (fun v => eng v == 0) s.identToDrop :=
            List.mem_filter.mpr ⟨hu, by simp [h0]⟩
          rw [← List.elem_iff] at hmem
          simp [List.contains, hmem] at hnc
          exact hnc hu h0
        · exact hb
      · rintro ⟨hu, hb⟩
        refine ⟨hu, ?_⟩
        have h0 : eng u ≠ 0 := by rw [hb]; decide
        have hnm : u ∉ List.filter (fun v => eng v == 0) s.identToDrop := by
          simp [List.mem_filter, h0]
        rw [← List.elem_iff] at hnm
        simpa [List.contains] using hnm
  · intro h
    unfold KVEngineState.dropAllQueued
    rw [dropQueuedLoop_fatal eng s.identToDrop [] h]

/-- Witness for C3 at a concrete queue where one drop succeeds and one stays
busy. -/
theorem dropAllQueued_spec_witness :
    (∀ u ∈ (["table:a", "table:b"] : List String),
      (fun v => if v = "table:a" then (0 : Int) else 16) u = 0 ∨
      (fun v => if v = "table:a" then (0 : Int) else 16) u = EBUSY) ∧
    ∃ s2, KVEngineState.dropAllQueued (fun v => if v = "table:a" then (0 : Int) else 16)
        ⟨["table:a", "table:b"], 5, ⟨[]⟩⟩ = some s2 ∧
      s2.epoch = 5 ∧
      s2.sessionCache = ⟨[]⟩ ∧
      ∀ u, u ∈ s2.identToDrop ↔ u ∈ (["table:a", "table:b"] : List String) ∧
        (fun v => if v = "table:a" then (0 : Int) else 16) u = EBUSY := by
  refine ⟨by decide, ?_⟩
  exact (dropAllQueued_spec (fun v => if v = "table:a" then (0 : Int) else 16)
    ⟨["table:a", "table:b"], 5, ⟨[]⟩⟩).1 (by decide)

/-- C2: `checkForInterrupt` evaluates its conditions in order — process-wide
kill-all flag (fails InterruptedAtShutdown), expired deadline (marks killed,
fails ExceededTimeLimit), the fail-point hook (may mark killed, after which
the pending-kill check fails Interrupted), then a pending kill (fails
Interrupted) — and whenever `heedMutex` is true, the operation holds a write
lock, and it has written since the last checkpoint, the call returns without
signaling and without marking the operation killed, for any combination of
shutdown-flag/deadline/kill-pending state. -/
theorem checkForInterrupt_spec (heedMutex : Bool) (g : ProcessState)
    (fp : FailPointState) (c : OpState) :
    (heedMutex = true → c.isWriteLocked = true → c.hasWrittenSinceCheckpoint = true →
      checkForInterrupt heedMutex g fp c = (Status.OK, c)) ∧
    ((heedMutex && c.isWriteLocked && c.hasWrittenSinceCheckpoint) = false →
      (g.killAllOperations = true →
        checkForInterrupt heedMutex g fp c =
          (Status.error .InterruptedAtShutdown "interrupted at shutdown", c)) ∧
      (g.killAllOperations = false → c.maxTimeHasExpired = true →
        checkForInterrupt heedMutex g fp c =
          (Status.error .ExceededTimeLimit "operation exceeded time limit", c.kill)) ∧
      (g.killAllOperations = false → c.maxTimeHasExpired = false →
        (fp.active && fp.shouldFail) = true →
        checkForInterrupt heedMutex g fp c =
          (Status.error .Interrupted "operation was interrupted", c.kill)) ∧
      (g.killAllOperations = false → c.maxTimeHasExpired = false →
        (fp.active && fp.shouldFail) = false → c.killPending = true →
        checkForInterrupt heedMutex g fp c =
          (Status.error .Interrupted "operation was interrupted", c)) ∧
      (g.killAllOperations = false → c.maxTimeHasExpired = false →
        (fp.active && fp.shouldFail) = false → c.killPending = false →
        checkForInterrupt heedMutex g fp c = (Status.OK, c))) := by
  obtain ⟨ka⟩ := g
  obtain ⟨fa, fs⟩ := fp
  obtain ⟨wl, hw, mt, kp⟩ := c
  cases heedMutex <;> cases ka <;> cases fa <;> cases fs <;> cases wl <;> cases hw <;>
    cases mt <;> cases kp <;> simp [checkForInterrupt, OpState.kill]

/-- Witness for C2: with `heedMutex`, a held write lock, and a dirty
transaction, a pending kill together with the shutdown flag and an expired
deadline is still not signaled. -/
theorem checkForInterrupt_spec_witness :
    checkForInterrupt true ⟨true⟩ ⟨true, true⟩ ⟨true, true, true, true⟩ =
      (Status.OK, ⟨true, true, true, true⟩) :=
  (checkForInterrupt_spec true ⟨true⟩ ⟨true, true⟩ ⟨true, true, true, true⟩).1
    rfl rfl rfl

/-- C4 counterexample: at a state where only the process-wide kill-all flag
is set, `checkForInterrupt` signals `InterruptedAtShutdown` but
`checkForInterruptNoAssert` returns the generic `Interrupted` code, so the
non-throwing variant does not classify the condition the same way. -/
theorem checkForInterruptNoAssert_code_differs :
    (checkForInterrupt false ⟨true⟩ ⟨false, false⟩ ⟨false, false, false, false⟩).1 =
      Status.error ErrorCodes.InterruptedAtShutdown "interrupted at shutdown" ∧
    (checkForInterruptNoAssert ⟨true⟩ ⟨false, false⟩ ⟨false, false, false, false⟩).1 =
      Status.error ErrorCodes.Interrupted "interrupted at shutdown" ∧
    ErrorCodes.Interrupted ≠ ErrorCodes.InterruptedAtShutdown :=
  ⟨rfl, rfl, by decide⟩

/-- C4 (amended): `checkForInterruptNoAssert` performs the same checks in
the same order as `checkForInterrupt` with `heedMutex = false`, with the
same side effects on the operation's killed state, and returns a non-OK
status exactly when `checkForInterrupt false` would signal — but it reports
every condition with the generic `Interrupted` code (messages "interrupted
at shutdown", "exceeded time limit", "interrupted") instead of the distinct
`InterruptedAtShutdown` / `ExceededTimeLimit` codes. -/
theorem checkForInterruptNoAssert_refines (g : ProcessState) (fp : FailPointState)
    (c : OpState) :
    (checkForInterruptNoAssert g fp c).2 = (checkForInterrupt false g fp c).2 ∧
    ((checkForInterruptNoAssert g fp c).1 = Status.OK ↔
      (checkForInterrupt false g fp c).1 = Status.OK) ∧
    ((checkForInterrupt false g fp c).1 =
        Status.error .InterruptedAtShutdown "interrupted at shutdown" →
      (checkForInterruptNoAssert g fp c).1 =
        Status.error .Interrupted "interrupted at shutdown") ∧
    ((checkForInterrupt false g fp c).1 =
        Status.error .ExceededTimeLimit "operation exceeded time limit" →
      (checkForInterruptNoAssert g fp c).1 =
        Status.error .Interrupted "exceeded time limit") ∧
    ((checkForInterrupt false g fp c).1 =
        Status.error .Interrupted "operation was interrupted" →
      (checkForInterruptNoAssert g fp c).1 =
        Status.error .Interrupted "interrupted") := by
  obtain ⟨ka⟩ := g
  obtain ⟨fa, fs⟩ := fp
  obtain ⟨wl, hw, mt, kp⟩ := c
  cases ka <;> cases fa <;> cases fs <;> cases wl <;> cases hw <;>
    cases mt <;> cases kp <;>
    simp [checkForInterrupt, checkForInterruptNoAssert, OpState.kill]

/-- Witness for C4's amended theorem at the shutdown state. -/
theorem checkForInterruptNoAssert_refines_witness :
    (checkForInterruptNoAssert ⟨true⟩ ⟨false, false⟩ ⟨false, false, false, false⟩).2 =
      (checkForInterrupt false ⟨true⟩ ⟨false, false⟩ ⟨false, false, false, false⟩).2 ∧
    (checkForInterruptNoAssert ⟨true⟩ ⟨false, false⟩ ⟨false, false, false, false⟩).1 =
      Status.error .Interrupted "interrupted at shutdown" := by
  have h := checkForInterruptNoAssert_refines ⟨true⟩ ⟨false, false⟩
    ⟨false, false, false, false⟩
  exact ⟨h.1, h.2.2.1 rfl⟩

/-- C5: when the size-storer flush hits a write-conflict inside its own
transaction, the conflict is swallowed and the call returns normally,
persisting nothing; a committed transaction persists the in-memory map; and
only a write-conflict is swallowed — any other exception propagates. -/
theorem syncSizeInfo_swallows_writeConflict_only (st : SizeStorerState) :
    syncSizeInfo true (some StorerExc.writeConflict) st = SyncOutcome.ok st ∧
    syncSizeInfo true none st = SyncOutcome.ok { st with persisted := st.mem } ∧
    syncSizeInfo true (some StorerExc.other) st =
      SyncOutcome.raised StorerExc.other st :=
  ⟨rfl, rfl, rfl⟩

/-- C8: `flushAllFiles` behaves identically for `sync = true` and
`sync = false` — the boolean argument has no influence — and on the
successful path both perform the size-storer persist followed by the
checkpoint and return 1. -/
theorem flushAllFiles_ignores_sync (hasStorer : Bool) (txn : Option StorerExc)
    (checkpointRet : Int) (st : SizeStorerState) :
    flushAllFiles true hasStorer txn checkpointRet st =
      flushAllFiles false hasStorer txn checkpointRet st ∧
    flushAllFiles true true none 0 st =
      FlushOutcome.ok { st with persisted := st.mem } 1 ∧
    flushAllFiles false true none 0 st =
      FlushOutcome.ok { st with persisted := st.mem } 1 :=
  ⟨rfl, rfl, rfl⟩

/-- C10: `okToRename` never rejects a rename — whenever it returns a status
it is OK — and it stores the original record store's current `numRecords`
and `dataSize` into the size storer under the ident's resource uri and then
synchronously flushes the size storer to its persisted resource. -/
theorem okToRename_spec (ident : String) (n d : Int) (st : SizeStorerState) :
    okToRename ident n d none st =
      RenameOutcome.ok Status.OK
        { mem := (st.store (_uri ident) n d).mem,
          persisted := (st.store (_uri ident) n d).mem } ∧
    okToRename ident n d (some StorerExc.writeConflict) st =
      RenameOutcome.ok Status.OK (st.store (_uri ident) n d) ∧
    (st.store (_uri ident) n d).mem (_uri ident) = some (n, d) ∧
    (∀ txn out st2, okToRename ident n d txn st = RenameOutcome.ok out st2 →
      out = Status.OK) := by
  refine ⟨rfl, rfl, by simp [SizeStorerState.store], ?_⟩
  intro txn out st2 h
  rcases txn with _ | e
  · cases h; rfl
  · cases e
    · cases h; rfl
    · cases h

/-- Witness for C10 at a concrete ident, sizes, and empty storer. -/
theorem okToRename_spec_witness :
    okToRename "a" 1 2 (some StorerExc.writeConflict)
        ⟨fun _ => none, fun _ => none⟩ =
      RenameOutcome.ok Status.OK
        ((⟨fun _ => none, fun _ => none⟩ : SizeStorerState).store (_uri "a") 1 2) ∧
    Status.OK = Status.OK := by
  have h := okToRename_spec "a" 1 2 ⟨fun _ => none, fun _ => none⟩
  exact ⟨h.2.1, h.2.2.2 (some StorerExc.writeConflict) Status.OK _ h.2.1⟩

/-- C6: the configuration string passed to `wiredtiger_open` is exactly, in
order: `create`, `cache_size=<N>G`, `session_max=20000`, the extensions
entry, `statistics=(all)`, the log entry exactly when durable, the
checkpoint entry, and the caller-supplied extra options appended verbatim at
the end. -/
theorem openConfig_format (g : Int) (durable : Bool) (extra : String) :
    openConfig g durable extra =
      "create," ++ ("cache_size=" ++ toString g ++ "G,") ++ "session_max=20000," ++
      "extensions=[local=(entry=index_collator_extension)]," ++ "statistics=(all)," ++
      (if durable then "log=(enabled=true,archive=true,path=journal)," else "") ++
      "checkpoint=(wait=60,log_size=2GB)," ++ extra := by
  cases durable <;> simp [openConfig, String.append_assoc] <;>
    rw [← String.append_assoc "create," "cache_size="] <;> rfl

/-- C7: for positive detected `pageSize` and `numPages` the cache budget is
10% of `pageSize * numPages` in whole GiB, truncated toward zero, with a
floor of 1 GiB; for non-positive detection it is 1 GiB. -/
theorem computeCacheSizeGB_spec (pageSize numPages : ℚ) :
    (0 < pageSize → 0 < numPages →
      computeCacheSizeGB pageSize numPages =
        max 1 ⌊pageSize * numPages / 10 / (1024 * 1024 * 1024 : ℚ)⌋) ∧
    ((pageSize ≤ 0 ∨ numPages ≤ 0) → computeCacheSizeGB pageSize numPages = 1) := by
  constructor
  · intro hp hn
    have hcond : 0 < pageSize ∧ 0 < numPages := ⟨hp, hn⟩
    have hpos : (0 : ℚ) ≤ numPages * pageSize / 10 / (1024 * 1024 * 1024) := by positivity
    unfold computeCacheSizeGB ratTruncToInt
    rw [if_pos hcond]
    show (if (if (0:ℚ) ≤ numPages * pageSize / 10 / (1024 * 1024 * 1024) then
        ⌊numPages * pageSize / 10 / (1024 * 1024 * 1024 : ℚ)⌋ else
        ⌈numPages * pageSize / 10 / (1024 * 1024 * 1024 : ℚ)⌉) < 1 then 1 else
        (if (0:ℚ) ≤ numPages * pageSize / 10 / (1024 * 1024 * 1024) then
        ⌊numPages * pageSize / 10 / (1024 * 1024 * 1024 : ℚ)⌋ else
        ⌈numPages * pageSize / 10 / (1024 * 1024 * 1024 : ℚ)⌉)) = _
    rw [if_pos hpos]
    have hcomm : numPages * pageSize / 10 / (1024 * 1024 * 1024 : ℚ) =
        pageSize * numPages / 10 / (1024 * 1024 * 1024 : ℚ) := by ring
    rw [hcomm]
    rcases le_or_lt 1 ⌊pageSize * numPages / 10 / (1024 * 1024 * 1024 : ℚ)⌋ with h1 | h1
    · rw [if_neg (by omega), max_eq_right h1]
    · rw [if_pos h1, max_eq_left (by omega)]
  · intro h
    have hcond : ¬(0 < pageSize ∧ 0 < numPages) := by
      rintro ⟨hp, hn⟩
      rcases h with h | h
      · exact absurd hp (not_lt.mpr h)
      · exact absurd hn (not_lt.mpr h)
    unfold computeCacheSizeGB
    rw [if_neg hcond]

/-- Witness for C7: a 16 GiB machine (4 KiB pages, 2^22 pages) gets the
1 GiB floor, and non-positive detection gets 1 GiB. -/
theorem computeCacheSizeGB_spec_witness :
    (0 : ℚ) < 4096 ∧ (0 : ℚ) < 4194304 ∧
    computeCacheSizeGB 4096 4194304 =
      max 1 ⌊(4096 * 4194304 / 10 / (1024 * 1024 * 1024) : ℚ)⌋ ∧
    computeCacheSizeGB 0 4194304 = 1 :=
  ⟨by norm_num, by norm_num,
    (computeCacheSizeGB_spec 4096 4194304).1 (by norm_num) (by norm_num),
    (computeCacheSizeGB_spec 0 4194304).2 (Or.inl le_rfl)⟩

/-- C9: for capped collections `getRecordStore` passes max size 4096 when
`cappedSize` is 0 and max docs -1 when `cappedMaxDocs` is 0, otherwise the
given values; for uncapped collections it passes uncapped with both limits
-1. -/
theorem getRecordStore_spec (ns ident : String) (o : CollectionOptions) :
    (o.capped = true → o.cappedSize = 0 →
      (getRecordStore ns ident o).cappedMaxSize = 4096) ∧
    (o.capped = true → o.cappedSize ≠ 0 →
      (getRecordStore ns ident o).cappedMaxSize = o.cappedSize) ∧
    (o.capped = true → o.cappedMaxDocs = 0 →
      (getRecordStore ns ident o).cappedMaxDocs = -1) ∧
    (o.capped = true → o.cappedMaxDocs ≠ 0 →
      (getRecordStore ns ident o).cappedMaxDocs = o.cappedMaxDocs) ∧
    (o.capped = true → (getRecordStore ns ident o).isCapped = true) ∧
    (o.capped = false →
      getRecordStore ns ident o =
        { ns := ns, uri := _uri ident, isCapped := false,
          cappedMaxSize := -1, cappedMaxDocs := -1 }) := by
  obtain ⟨cap, cs, cd⟩ := o
  cases cap <;> by_cases hcs : cs = 0 <;> by_cases hcd : cd = 0 <;>
    simp [getRecordStore, hcs, hcd]

/-- Witness for C9 at concrete capped options with both limits unset. -/
theorem getRecordStore_spec_witness :
    (getRecordStore "db.c" "r1" ⟨true, 0, 0⟩).cappedMaxSize = 4096 ∧
    (getRecordStore "db.c" "r1" ⟨true, 0, 0⟩).cappedMaxDocs = -1 ∧
    getRecordStore "db.c" "r2" ⟨false, 0, 0⟩ =
      { ns := "db.c", uri := _uri "r2", isCapped := false,
        cappedMaxSize := -1, cappedMaxDocs := -1 } := by
  have h := getRecordStore_spec "db.c" "r1" ⟨true, 0, 0⟩
  have h2 := getRecordStore_spec "db.c" "r2" ⟨false, 0, 0⟩
  exact ⟨h.1 rfl rfl, h.2.2.1 rfl rfl, h2.2.2.2.2.2 rfl⟩

end MongoSpec
